import Mathlib

/-!
Shallow embedding of the Asset Analysis Engine of the SmartFinance backend
(`app/api/analysis.py`, `app/services/news_engine.py`,
`app/services/prediction_engine.py`).

Python floats are modelled as rationals (`ℚ`); all comparisons and
arithmetic in the engine are exact at the thresholds that matter.
Python exceptions are modelled with `Except`; the two exception classes the
orchestrator distinguishes (`ValueError` vs anything else) are the `PyError`
constructors.  External collaborators (yfinance / MFAPI fetch, Prophet,
pandas `std`, GoogleNews, FinBERT) are passed in as explicit function
arguments, mirroring the spec's black-box treatment of them.
-/

namespace SmartFinance

/-- `app/schemas/analysis.py` — `SentimentType`. -/
inductive SentimentType where
  | positive
  | negative
  | neutral
deriving DecidableEq, Repr

/-- `app/schemas/analysis.py` — `VerdictType`. -/
inductive VerdictType where
  | strong_buy
  | buy
  | hold
  | sell
  | strong_sell
deriving DecidableEq, Repr

/-- `app/schemas/analysis.py` — `NewsItem`. -/
structure NewsItem where
  title : String
  source : String
  sentiment : SentimentType
  score : ℚ
deriving DecidableEq, Repr

/-- `app/schemas/analysis.py` — `PredictionPoint`.  Dates are modelled as a
day index `ℕ` (the `"YYYY-MM-DD"` strings of the source order the same way
as the underlying dates). -/
structure PredictionPoint where
  date : ℕ
  price : ℚ
  type : String
  confidence_lower : Option ℚ := none
  confidence_upper : Option ℚ := none
deriving DecidableEq, Repr

/-- `app/schemas/analysis.py` — `MetricCard`. -/
structure MetricCard where
  current_price : ℚ
  predicted_price_30d : ℚ
  growth_percentage : ℚ
  risk_score : ℚ
deriving DecidableEq, Repr

/-- `app/schemas/analysis.py` — `AssetAnalysisResponse`. -/
structure AssetAnalysisResponse where
  symbol : String
  asset_name : String
  verdict : VerdictType
  verdict_reason : String
  graph_data : List PredictionPoint
  news_feed : List NewsItem
  metrics : MetricCard
deriving DecidableEq, Repr

/-- A raised Python exception, as the orchestrator's `except` clauses
distinguish them: `ValueError` (caught first) versus any other
exception. -/
inductive PyError where
  | valueError (msg : String)
  | otherError (msg : String)
deriving DecidableEq, Repr

/-- A FastAPI `HTTPException(status_code, detail)`: the error response the
endpoint returns, whose JSON body is `{"detail": <detail>}`. -/
structure HTTPError where
  status_code : ℕ
  detail : String
deriving DecidableEq, Repr

/-!  ## Verdict Decision Engine — `calculate_verdict` (analysis.py 16–41) -/

/-- `app/api/analysis.py` — `calculate_verdict`, translated clause for
clause (`0.2 = 1/5`, `0.5 = 1/2`). -/
def calculate_verdict (growth_pct : ℚ) (sentiment_score : ℚ) :
    VerdictType × String :=
  if growth_pct > 2 then
    if sentiment_score > 1/5 then
      (.strong_buy, "Price trend is strong and news is positive.")
    else if sentiment_score < -(1/5) then
      (.hold, "Math says UP, but bad news suggests a trap. Wait.")
    else
      (.buy, "Technical trend is up, neutral news.")
  else if growth_pct < -2 then
    if sentiment_score > 1/2 then
      (.buy, "Price is falling but news is very positive. Value buy opportunity.")
    else if sentiment_score < -(1/5) then
      (.strong_sell, "Falling price and bad news. Get out.")
    else
      (.sell, "Downward trend with no positive catalyst.")
  else
    (.hold, "Market is sideways. No clear signal.")

/-- Modelled from the spec (§4.4): the fixed decision table, written row by
row, evaluated top-to-bottom with first match winning and every threshold
comparison strict.  This is the spec-side definition that
`calculate_verdict` is compared against. -/
def verdictTable (growth_percentage : ℚ) (normalized_sentiment : ℚ) :
    VerdictType :=
  if growth_percentage > 2 ∧ normalized_sentiment > 1/5 then .strong_buy
  else if growth_percentage > 2 ∧ normalized_sentiment < -(1/5) then .hold
  else if growth_percentage > 2 then .buy
  else if growth_percentage < -2 ∧ normalized_sentiment > 1/2 then .buy
  else if growth_percentage < -2 ∧ normalized_sentiment < -(1/5) then .strong_sell
  else if growth_percentage < -2 then .sell
  else .hold

/-!  ## Sentiment aggregation (analysis.py 65–77) -/

/-- The accumulation loop of `analyze_asset` step 4: `sentiment_total`
starts at 0, adds 1 per positive item and subtracts 1 per negative item. -/
def sentiment_total (news_items : List NewsItem) : ℤ :=
  news_items.foldl
    (fun acc item =>
      if item.sentiment = SentimentType.positive then acc + 1
      else if item.sentiment = SentimentType.negative then acc - 1
      else acc)
    0

/-- `analyze_asset` step 4 continued: `normalized_sentiment` is 0, replaced
by `sentiment_total / len(news_items)` when the list is non-empty. -/
def normalized_sentiment (news_items : List NewsItem) : ℚ :=
  if news_items.isEmpty then 0
  else (sentiment_total news_items : ℚ) / news_items.length

/-- Number of positive items, as a plain count. -/
def posCount (news_items : List NewsItem) : ℕ :=
  news_items.countP (fun item =>
    match item.sentiment with
    | .positive => true
    | _ => false)

/-- Number of negative items, as a plain count. -/
def negCount (news_items : List NewsItem) : ℕ :=
  news_items.countP (fun item =>
    match item.sentiment with
    | .negative => true
    | _ => false)

/-!  ## Python `round` -/

/-- Round-half-even on rationals: the semantics of Python's built-in
`round` for the exact values modelled here. -/
def roundHalfEven (x : ℚ) : ℤ :=
  let f := ⌊x⌋
  if x - f < 1/2 then f
  else if x - f > 1/2 then f + 1
  else if f % 2 = 0 then f else f + 1

/-- Python `round(x, ndigits)`. -/
def pyRound (ndigits : ℕ) (x : ℚ) : ℚ :=
  (roundHalfEven (x * 10 ^ ndigits) : ℚ) / 10 ^ ndigits

/-!  ## News Engine — `NewsEngine.fetch_and_analyze` (news_engine.py 36–85)

The GoogleNews search result entries (`item['title']`, `item.get('media',
'Google News')`) are `RawNews`; the FinBERT classifier (`self.classifier`,
`None` when loading failed in `__init__`) is an optional function from a
headline to either a `(label, score)` prediction or a raised exception. -/

/-- One GoogleNews result entry: `item['title']` and the optional
`item['media']` field. -/
structure RawNews where
  title : String
  media : Option String := none
deriving DecidableEq, Repr

/-- A FinBERT prediction `{'label': ..., 'score': ...}`. -/
structure Prediction where
  label : String
  score : ℚ
deriving DecidableEq, Repr

/-- The classifier collaborator: `none` models `self.classifier = None`
(FinBERT failed to load in `NewsEngine.__init__`); `some c` models a loaded
pipeline where `c title` either returns a prediction or raises. -/
abbrev Classifier := Option (String → Except String Prediction)

/-- The body of the `for item in results` loop of `fetch_and_analyze`
(news_engine.py 55–83): defaults `("neutral", 0.0)`, overwritten by the
classifier's prediction when the classifier exists and does not raise
(a raised exception is caught and logged, keeping the defaults), then the
label is mapped onto `SentimentType` and the `NewsItem` is built. -/
def analyzeItem (classifier : Classifier) (item : RawNews) : NewsItem :=
  let res : String × ℚ :=
    match classifier with
    | none => ("neutral", 0)
    | some c =>
        match c item.title with
        | .ok prediction => (prediction.label, prediction.score)
        | .error _ => ("neutral", 0)
  let sentiment_enum : SentimentType :=
    if res.1 = "positive" then .positive
    else if res.1 = "negative" then .negative
    else .neutral
  { title := item.title
    source := item.media.getD "Google News"
    sentiment := sentiment_enum
    score := pyRound 2 res.2 }

/-- `NewsEngine.fetch_and_analyze` after the query has been issued:
`searchResults` is `self.googlenews.result()`; the code keeps the top 5,
returns `[]` when there are none, and otherwise analyzes each entry in
order. -/
def fetch_and_analyze (classifier : Classifier)
    (searchResults : List RawNews) : List NewsItem :=
  let results := searchResults.take 5
  if results.isEmpty then []
  else results.map (analyzeItem classifier)

/-!  ## Prediction Engine (prediction_engine.py)

A row of the cleaned DataFrame `[ds, y]` is a `TimePoint`; a row of
Prophet's `forecast` frame is a `ProphetRow`.  The network fetch is an
`Except String (List TimePoint)` (success = the fetched, cleaned series;
error = any raised exception); Prophet (`fit` + `make_future_dataframe` +
`predict`) is an abstract function from the history to the forecast frame,
and pandas `Series.std()` is an abstract function on the list of
percentage changes. -/

/-- One row of the cleaned history DataFrame: date `ds`, value `y`. -/
structure TimePoint where
  ds : ℕ
  y : ℚ
deriving DecidableEq, Repr

/-- One row of Prophet's `forecast` DataFrame: the columns the engine
reads. -/
structure ProphetRow where
  ds : ℕ
  yhat : ℚ
  yhat_lower : ℚ
  yhat_upper : ℚ
deriving DecidableEq, Repr

/-- The Prophet collaborator: history series in, forecast frame out (the
frame `model.predict(make_future_dataframe(periods=30))` — history dates
plus 30 future dates). -/
abbrev Forecaster := List TimePoint → List ProphetRow

/-- `PredictionEngine._fetch_history` (prediction_engine.py 13–44): the
entire fetch is wrapped in `try/except Exception`; on any raised error it
logs and returns an empty DataFrame. -/
def fetch_history (raw : Except String (List TimePoint)) : List TimePoint :=
  match raw with
  | .ok df => df
  | .error _ => []

/-- `recent_data['y'].pct_change()` over the last-30 slice, with the
leading `NaN` dropped (pandas `std` skips it): element `i` is
`(y[i+1] - y[i]) / y[i]`. -/
def pctChanges (ys : List ℚ) : List ℚ :=
  List.zipWith (fun prev cur => (cur - prev) / prev) ys ys.tail

/-- `risk_score = min(volatility * 2, 10)` (prediction_engine.py 73). -/
def risk_score (volatility : ℚ) : ℚ :=
  min (volatility * 2) 10

/-- `df.tail(30)` / `forecast.tail(30)`: the last 30 rows. -/
def tail30 (l : List α) : List α :=
  l.drop (l.length - 30)

/-- The `PredictionPoint` built for one history row
(prediction_engine.py 85–90). -/
def mkHistoryPoint (row : TimePoint) : PredictionPoint :=
  { date := row.ds
    price := pyRound 2 row.y
    type := "history" }

/-- The `PredictionPoint` built for one forecast row
(prediction_engine.py 94–101). -/
def mkForecastPoint (row : ProphetRow) : PredictionPoint :=
  { date := row.ds
    price := pyRound 2 row.yhat
    type := "forecast"
    confidence_lower := some (pyRound 2 row.yhat_lower)
    confidence_upper := some (pyRound 2 row.yhat_upper) }

/-- `df.iloc[-1]['y']` given the emptiness check already passed. -/
def lastY (df : List TimePoint) : ℚ :=
  (df.getLast?.getD ⟨0, 0⟩).y

/-- `forecast.iloc[-1]['yhat']`. -/
def lastYhat (forecast : List ProphetRow) : ℚ :=
  (forecast.getLast?.getD ⟨0, 0, 0, 0⟩).yhat

/-- `PredictionEngine.run_forecast` (prediction_engine.py 46–110),
parameterized over the outcome of the external fetch, the Prophet
collaborator, and pandas `std`. -/
def run_forecast (raw : Except String (List TimePoint))
    (prophet : Forecaster) (std : List ℚ → ℚ) :
    Except PyError (List PredictionPoint × MetricCard) :=
  let df := fetch_history raw
  if df.isEmpty ∨ df.length < 30 then
    .error (.valueError "Not enough historical data to predict")
  else
    let forecast := prophet df
    let volatility := std (pctChanges ((tail30 df).map TimePoint.y)) * 100
    let risk := risk_score volatility
    let current_price := lastY df
    let future_price := lastYhat forecast
    let growth_pct := ((future_price - current_price) / current_price) * 100
    let points :=
      (tail30 df).map mkHistoryPoint ++ (tail30 forecast).map mkForecastPoint
    let metrics : MetricCard :=
      { current_price := pyRound 2 current_price
        predicted_price_30d := pyRound 2 future_price
        growth_percentage := pyRound 2 growth_pct
        risk_score := pyRound 1 risk }
    .ok (points, metrics)

/-!  ## Analysis Orchestrator — `analyze_asset` (analysis.py 43–97)

The two pipelines run concurrently; `asyncio.gather` re-raises the
exception of a failed pipeline at the join point.  The `try` block's
result is a response, a `ValueError` mapped by the first `except` clause to
`HTTPException(400, str(e))`, or any other exception mapped by the second
to `HTTPException(500, "Internal AI Error")`. -/

/-- The `asyncio.gather` join: both results, or the raised exception of a
failed pipeline (when both failed, the math pipeline's — which one a real
race surfaces is immaterial to every claim below). -/
def gather2 (math : Except PyError α) (news : Except PyError β) :
    Except PyError (α × β) :=
  match math, news with
  | .ok a, .ok b => .ok (a, b)
  | .error e, _ => .error e
  | .ok _, .error e => .error e

/-- `analyze_asset` (analysis.py 43–97), parameterized over the outcomes
of the two dispatched pipelines. -/
def analyze_asset (symbol asset_name : String)
    (mathResult : Except PyError (List PredictionPoint × MetricCard))
    (newsResult : Except PyError (List NewsItem)) :
    Except HTTPError AssetAnalysisResponse :=
  match gather2 mathResult newsResult with
  | .error (.valueError msg) => .error ⟨400, msg⟩
  | .error (.otherError _) => .error ⟨500, "Internal AI Error"⟩
  | .ok ((points, metrics), news_items) =>
      let ns := normalized_sentiment news_items
      let vr := calculate_verdict metrics.growth_percentage ns
      .ok
        { symbol := symbol
          asset_name := asset_name
          verdict := vr.1
          verdict_reason := vr.2
          graph_data := points
          news_feed := news_items
          metrics := metrics }

/-!  ## Witness data

Concrete collaborators and inputs used by the witness theorems below. -/

/-- A classifier that raises on one specific headline and classifies every
other headline positive. -/
def wClassify : String → Except String Prediction := fun title =>
  if title = "RIL shares plunge" then .error "CUDA out of memory"
  else .ok ⟨"positive", 93/100⟩

/-- Three search-result headlines; the classifier above fails on the
second. -/
def wSearchResults : List RawNews :=
  [⟨"RIL hits record high", some "ET"⟩, ⟨"RIL shares plunge", none⟩,
    ⟨"RIL Q2 results beat estimates", some "Mint"⟩]

/-- A single-headline search result. -/
def wGoldNews : List RawNews :=
  [⟨"Gold steady ahead of Fed meeting", none⟩]

/-- A 30-point history series on day indices `0..29`. -/
def wDf : List TimePoint :=
  (List.range 30).map fun i => ⟨i, 100⟩

/-- A Prophet collaborator honouring the black-box contract on `wDf`:
its forecast frame has the 30 history dates followed by 30 future dates
`30..59`. -/
def wProphet : Forecaster :=
  fun _ => (List.range 60).map fun i => ⟨i, 100, 95, 105⟩

/-- The 30 future dates of `wProphet`'s frame. -/
def wFutureDates : List ℕ :=
  (List.range 30).map fun i => 30 + i

/-!  ## Theorems -/

lemma sentiment_total_foldl (news_items : List NewsItem) (acc : ℤ) :
    news_items.foldl
      (fun acc item =>
        if item.sentiment = SentimentType.positive then acc + 1
        else if item.sentiment = SentimentType.negative then acc - 1
        else acc)
      acc
      = acc + (posCount news_items : ℤ) - (negCount news_items : ℤ) := by
  induction news_items generalizing acc with
  | nil => simp [posCount, negCount]
  | cons hd tl ih =>
      simp only [List.foldl_cons, ih, posCount, negCount, List.countP_cons]
      cases h : hd.sentiment <;> simp [h] <;> omega

lemma sentiment_total_eq (news_items : List NewsItem) :
    sentiment_total news_items
      = (posCount news_items : ℤ) - (negCount news_items : ℤ) := by
  simpa using sentiment_total_foldl news_items 0

/-- C1: `calculate_verdict`, on any pair of rationals, equals the spec's
decision table evaluated top-to-bottom with first match winning and all
threshold comparisons strict; in particular growth exactly `2.0` or `-2.0`
yields HOLD, and growth below `-2.0` with sentiment exactly `0.5` yields
SELL, not BUY. -/
theorem C1_verdict_matches_decision_table :
    (∀ g s : ℚ, (calculate_verdict g s).1 = verdictTable g s)
    ∧ (∀ s : ℚ, (calculate_verdict 2 s).1 = VerdictType.hold)
    ∧ (∀ s : ℚ, (calculate_verdict (-2) s).1 = VerdictType.hold)
    ∧ (∀ g : ℚ, g < -2 → (calculate_verdict g (1/2)).1 = VerdictType.sell) := by
  refine ⟨?_, ?_, ?_, ?_⟩
  · intro g s
    unfold calculate_verdict verdictTable
    split_ifs <;> simp_all <;> linarith
  · intro s
    unfold calculate_verdict
    norm_num
  · intro s
    unfold calculate_verdict
    norm_num
  · intro g hg
    unfold calculate_verdict
    rw [if_neg (by push_neg; linarith), if_pos hg]
    norm_num

/-- Witness for C1 at growth `-3.0`, sentiment `0.5`. -/
theorem C1_witness :
    (calculate_verdict (-3) (1/2)).1 = VerdictType.sell :=
  C1_verdict_matches_decision_table.2.2.2 (-3) (by norm_num)

lemma posCount_le_length (news_items : List NewsItem) :
    posCount news_items ≤ news_items.length :=
  List.countP_le_length _

lemma negCount_le_length (news_items : List NewsItem) :
    negCount news_items ≤ news_items.length :=
  List.countP_le_length _

/-- C2: the aggregate sentiment equals
`(count(positive) - count(negative)) / total_count`, is `0.0` on the empty
list, always lies in `[-1, 1]`, and is unchanged by arbitrary modification
of the per-headline confidence scores. -/
theorem C2_sentiment_aggregation :
    (∀ news_items : List NewsItem,
        normalized_sentiment news_items
          = if news_items.length = 0 then 0
            else ((posCount news_items : ℚ) - (negCount news_items : ℚ))
                / (news_items.length : ℚ))
    ∧ normalized_sentiment [] = 0
    ∧ (∀ news_items : List NewsItem,
        -1 ≤ normalized_sentiment news_items
          ∧ normalized_sentiment news_items ≤ 1)
    ∧ (∀ (news_items : List NewsItem) (f : NewsItem → ℚ),
        normalized_sentiment
            (news_items.map (fun item => { item with score := f item }))
          = normalized_sentiment news_items) := by
  have hval : ∀ news_items : List NewsItem,
      normalized_sentiment news_items
        = if news_items.length = 0 then 0
          else ((posCount news_items : ℚ) - (negCount news_items : ℚ))
              / (news_items.length : ℚ) := by
    intro l
    unfold normalized_sentiment
    rw [sentiment_total_eq]
    rcases l with _ | ⟨hd, tl⟩
    · rfl
    · rw [if_neg (by simp), if_neg (by simp)]
      push_cast
      ring
  refine ⟨hval, by simp [normalized_sentiment], ?_, ?_⟩
  · intro l
    rw [hval l]
    split_ifs with h
    · norm_num
    · have hn : (0 : ℚ) < (l.length : ℚ) := by
        exact_mod_cast Nat.pos_of_ne_zero h
      have hp : (posCount l : ℚ) ≤ (l.length : ℚ) := by
        exact_mod_cast posCount_le_length l
      have hq : (negCount l : ℚ) ≤ (l.length : ℚ) := by
        exact_mod_cast negCount_le_length l
      have hp0 : (0 : ℚ) ≤ (posCount l : ℚ) := by positivity
      have hq0 : (0 : ℚ) ≤ (negCount l : ℚ) := by positivity
      constructor
      · rw [le_div_iff₀ hn]
        linarith
      · rw [div_le_one hn]
        linarith
  · intro l f
    have hpos : posCount (l.map (fun item => { item with score := f item }))
        = posCount l := by
      unfold posCount
      rw [List.countP_map]
      rfl
    have hneg : negCount (l.map (fun item => { item with score := f item }))
        = negCount l := by
      unfold negCount
      rw [List.countP_map]
      rfl
    rw [hval, hval, hpos, hneg, List.length_map]

/-- C3 counterexample: with the math pipeline succeeding and the news
pipeline raising (news source unreachable), `analyze_asset` returns the
500 error response — the claim that such a failure never produces an error
response is false at this input. -/
theorem C3_counterexample :
    analyze_asset "TCS" "Tata Consultancy Services"
        (.ok ([], ⟨100, 110, 10, 2⟩))
        (.error (.otherError "GoogleNews unreachable"))
      = .error ⟨500, "Internal AI Error"⟩ := rfl

/-- C3 (amended): when `fetch_and_analyze` raises a (non-`ValueError`)
exception, the exception propagates through the `asyncio.gather` join and
`analyze_asset` fails the request with a 500 "Internal AI Error" response;
the orchestrator never reaches the empty-feed / neutral-sentiment path. -/
theorem C3_news_failure_fails_request (symbol asset_name : String)
    (pm : List PredictionPoint × MetricCard) (msg : String) :
    analyze_asset symbol asset_name (.ok pm) (.error (.otherError msg))
      = .error ⟨500, "Internal AI Error"⟩ := rfl

/-- C4 counterexample: a raised fetch error ("connection refused") is
swallowed by `_fetch_history` into an empty frame, so `run_forecast`
raises the insufficient-data `ValueError` and the endpoint answers 400
insufficient-data — not a 500-class generic failure distinguishable from
insufficient data, as the claim requires. -/
theorem C4_counterexample :
    run_forecast (.error "requests.ConnectionError: connection refused")
        (fun _ => []) (fun _ => 0)
      = .error (.valueError "Not enough historical data to predict")
    ∧ analyze_asset "AAPL" "Apple"
        (run_forecast (.error "requests.ConnectionError: connection refused")
          (fun _ => []) (fun _ => 0))
        (.ok [])
      = .error ⟨400, "Not enough historical data to predict"⟩ := by
  have h1 : run_forecast
        (.error "requests.ConnectionError: connection refused")
        (fun _ => []) (fun _ => 0)
      = .error (.valueError "Not enough historical data to predict") := by
    simp [run_forecast, fetch_history]
  exact ⟨h1, by rw [h1]; rfl⟩

/-- C4 (amended): when the market/NAV fetch raises any exception,
`_fetch_history` catches it and returns an empty series, so `run_forecast`
raises the insufficient-data `ValueError` and the client receives the 400
insufficient-data response — an unexpected fetch failure is reported as
insufficient data, indistinguishable from genuinely short history. -/
theorem C4_fetch_failure_reported_as_insufficient_data
    (msg : String) (prophet : Forecaster) (std : List ℚ → ℚ)
    (symbol asset_name : String) (news : Except PyError (List NewsItem)) :
    run_forecast (.error msg) prophet std
      = .error (.valueError "Not enough historical data to predict")
    ∧ analyze_asset symbol asset_name
        (run_forecast (.error msg) prophet std) news
      = .error ⟨400, "Not enough historical data to predict"⟩ := by
  have h1 : run_forecast (.error msg) prophet std
      = .error (.valueError "Not enough historical data to predict") := by
    simp [run_forecast, fetch_history]
  exact ⟨h1, by rw [h1]; rfl⟩

lemma pyRound_zero (n : ℕ) : pyRound n 0 = 0 := by
  unfold pyRound roundHalfEven
  norm_num

/-- C5: with a loaded classifier, the batch result is exactly one item per
retained headline, each produced independently by the loop body; a
classification failure on a single headline yields a neutral item with
confidence 0.0 for that headline alone, and never aborts the batch. -/
theorem C5_per_headline_failure_isolated
    (classify : String → Except String Prediction)
    (searchResults : List RawNews) :
    fetch_and_analyze (some classify) searchResults
      = (searchResults.take 5).map (analyzeItem (some classify))
    ∧ (fetch_and_analyze (some classify) searchResults).length
      = min 5 searchResults.length
    ∧ (∀ (item : RawNews) (msg : String),
        classify item.title = .error msg →
          (analyzeItem (some classify) item).sentiment = SentimentType.neutral
          ∧ (analyzeItem (some classify) item).score = 0) := by
  have hmap : fetch_and_analyze (some classify) searchResults
      = (searchResults.take 5).map (analyzeItem (some classify)) := by
    by_cases h : (searchResults.take 5).isEmpty
    · rw [List.isEmpty_iff] at h
      simp [fetch_and_analyze, h]
    · simp [fetch_and_analyze, h]
  refine ⟨hmap, ?_, ?_⟩
  · rw [hmap, List.length_map, List.length_take]
  · intro item msg h
    constructor <;> simp [analyzeItem, h, pyRound_zero]

/-- Witness for C5: a classifier that raises on the second headline;
the batch survives and that item is neutral with score 0. -/
theorem C5_witness :
    fetch_and_analyze (some wClassify) wSearchResults
      = (wSearchResults.take 5).map (analyzeItem (some wClassify))
    ∧ (analyzeItem (some wClassify)
          ⟨"RIL shares plunge", none⟩).sentiment = SentimentType.neutral
    ∧ (analyzeItem (some wClassify)
          ⟨"RIL shares plunge", none⟩).score = 0 :=
  ⟨(C5_per_headline_failure_isolated wClassify wSearchResults).1,
   ((C5_per_headline_failure_isolated wClassify wSearchResults).2.2
      ⟨"RIL shares plunge", none⟩ "CUDA out of memory" (by rfl)).1,
   ((C5_per_headline_failure_isolated wClassify wSearchResults).2.2
      ⟨"RIL shares plunge", none⟩ "CUDA out of memory" (by rfl)).2⟩

/-- C6: with fewer than 30 fetched points, `run_forecast` raises the
recoverable insufficient-data `ValueError`, and `analyze_asset` maps
exactly that failure to a 400 response whose body detail is the error's
message. -/
theorem C6_insufficient_history_maps_to_400
    (df : List TimePoint) (h : df.length < 30)
    (prophet : Forecaster) (std : List ℚ → ℚ)
    (symbol asset_name : String) (news : Except PyError (List NewsItem)) :
    run_forecast (.ok df) prophet std
      = .error (.valueError "Not enough historical data to predict")
    ∧ analyze_asset symbol asset_name
        (run_forecast (.ok df) prophet std) news
      = .error ⟨400, "Not enough historical data to predict"⟩ := by
  have h1 : run_forecast (.ok df) prophet std
      = .error (.valueError "Not enough historical data to predict") := by
    unfold run_forecast fetch_history
    rw [if_pos (Or.inr h)]
  exact ⟨h1, by rw [h1]; rfl⟩

/-- Witness for C6 on a 29-point series. -/
theorem C6_witness :
    run_forecast (.ok ((List.range 29).map fun i => ⟨i, 100⟩))
        (fun _ => []) (fun _ => 0)
      = .error (.valueError "Not enough historical data to predict")
    ∧ analyze_asset "GOLDBEES" "Gold ETF"
        (run_forecast (.ok ((List.range 29).map fun i => ⟨i, 100⟩))
          (fun _ => []) (fun _ => 0)) (.ok [])
      = .error ⟨400, "Not enough historical data to predict"⟩ :=
  C6_insufficient_history_maps_to_400 _ (by simp) _ _ "GOLDBEES" "Gold ETF" _

/-- C10: with the classifier absent (`self.classifier = None` after a
failed FinBERT load), `fetch_and_analyze` still returns one item per
retained headline — non-empty whenever headlines exist — every item
neutral with score 0.0. -/
theorem C10_no_classifier_degrades_gracefully
    (searchResults : List RawNews) (hne : searchResults ≠ []) :
    fetch_and_analyze none searchResults ≠ []
    ∧ (fetch_and_analyze none searchResults).length
      = min 5 searchResults.length
    ∧ ∀ item ∈ fetch_and_analyze none searchResults,
        item.sentiment = SentimentType.neutral ∧ item.score = 0 := by
  have hmap : fetch_and_analyze none searchResults
      = (searchResults.take 5).map (analyzeItem none) := by
    by_cases h : (searchResults.take 5).isEmpty
    · rw [List.isEmpty_iff] at h
      simp [fetch_and_analyze, h]
    · simp [fetch_and_analyze, h]
  have hitem : ∀ item : RawNews,
      (analyzeItem none item).sentiment = SentimentType.neutral
      ∧ (analyzeItem none item).score = 0 := by
    intro item
    constructor <;> simp [analyzeItem, pyRound_zero]
  refine ⟨?_, ?_, ?_⟩
  · rw [hmap]
    simp only [ne_eq, List.map_eq_nil_iff, List.take_eq_nil_iff]
    simp [hne]
  · rw [hmap, List.length_map, List.length_take]
  · intro item hmem
    rw [hmap] at hmem
    obtain ⟨raw, _, rfl⟩ := List.mem_map.1 hmem
    exact hitem raw

/-- Witness for C10 on a single-headline result list. -/
theorem C10_witness :
    fetch_and_analyze none wGoldNews ≠ []
    ∧ (fetch_and_analyze none wGoldNews).length = min 5 wGoldNews.length
    ∧ ∀ item ∈ fetch_and_analyze none wGoldNews,
        item.sentiment = SentimentType.neutral ∧ item.score = 0 :=
  C10_no_classifier_degrades_gracefully wGoldNews (by simp [wGoldNews])

/-- C8: the risk score equals `min(volatility * 2, 10)`; over non-negative
volatilities it is monotonic non-decreasing, lies in `[0, 10]`, and equals
exactly 10 for every volatility at least 5. -/
theorem C8_risk_score_properties :
    (∀ v : ℚ, risk_score v = min (v * 2) 10)
    ∧ (∀ v w : ℚ, 0 ≤ v → v ≤ w → risk_score v ≤ risk_score w)
    ∧ (∀ v : ℚ, 0 ≤ v → 0 ≤ risk_score v ∧ risk_score v ≤ 10)
    ∧ (∀ v : ℚ, 5 ≤ v → risk_score v = 10) := by
  refine ⟨fun v => rfl, ?_, ?_, ?_⟩
  · intro v w _ hvw
    unfold risk_score
    exact min_le_min (by linarith) le_rfl
  · intro v hv
    unfold risk_score
    exact ⟨le_min (by linarith) (by norm_num), min_le_right _ _⟩
  · intro v hv
    unfold risk_score
    rw [min_eq_right (by linarith)]

/-- Witness for C8 at volatilities 3, 4 and 7. -/
theorem C8_witness :
    risk_score 3 = min (3 * 2) 10
    ∧ risk_score 3 ≤ risk_score 4
    ∧ (0 ≤ risk_score 3 ∧ risk_score 3 ≤ 10)
    ∧ risk_score 7 = 10 :=
  ⟨C8_risk_score_properties.1 3,
   C8_risk_score_properties.2.1 3 4 (by norm_num) (by norm_num),
   C8_risk_score_properties.2.2.1 3 (by norm_num),
   C8_risk_score_properties.2.2.2 7 (by norm_num)⟩

lemma run_forecast_ok (df : List TimePoint) (prophet : Forecaster)
    (std : List ℚ → ℚ) (h30 : 30 ≤ df.length) :
    run_forecast (.ok df) prophet std
      = .ok ((tail30 df).map mkHistoryPoint
              ++ (tail30 (prophet df)).map mkForecastPoint,
            { current_price := pyRound 2 (lastY df)
              predicted_price_30d := pyRound 2 (lastYhat (prophet df))
              growth_percentage := pyRound 2
                ((lastYhat (prophet df) - lastY df) / lastY df * 100)
              risk_score := pyRound 1 (risk_score
                (std (pctChanges ((tail30 df).map TimePoint.y)) * 100)) }) := by
  have hcond : ¬(df.isEmpty = true ∨ df.length < 30) := by
    rw [List.isEmpty_iff, ← List.length_eq_zero]
    omega
  simp only [run_forecast, fetch_history]
  rw [if_neg hcond]

/-- C7: on success the graph series is the last 30 observed history points
followed by the 30 forecast points — 60 in total, ordered by date — and a
point carries confidence bounds exactly when its kind is `forecast`.
Stated under the spec's black-box contract for the forecaster: its frame
carries the history dates followed by 30 strictly later, ascending future
dates. -/
theorem C7_graph_series_shape
    (df : List TimePoint) (prophet : Forecaster) (std : List ℚ → ℚ)
    (futureDates : List ℕ)
    (h30 : 30 ≤ df.length)
    (hmap : (prophet df).map ProphetRow.ds
      = df.map TimePoint.ds ++ futureDates)
    (hflen : futureDates.length = 30)
    (hsorted : List.Sorted (· < ·) (df.map TimePoint.ds))
    (hfsorted : List.Sorted (· < ·) futureDates)
    (hafter : ∀ a ∈ df.map TimePoint.ds, ∀ b ∈ futureDates, a < b) :
    ∃ points metrics,
      run_forecast (.ok df) prophet std = .ok (points, metrics)
      ∧ points = (tail30 df).map mkHistoryPoint
          ++ (tail30 (prophet df)).map mkForecastPoint
      ∧ points.length = 60
      ∧ (∀ p ∈ points.take 30, p.type = "history"
          ∧ p.confidence_lower = none ∧ p.confidence_upper = none)
      ∧ (∀ p ∈ points.drop 30, p.type = "forecast"
          ∧ p.confidence_lower.isSome ∧ p.confidence_upper.isSome)
      ∧ (∀ p ∈ points, (p.confidence_lower.isSome ↔ p.type = "forecast")
          ∧ (p.confidence_upper.isSome ↔ p.type = "forecast"))
      ∧ List.Sorted (· < ·) (points.map PredictionPoint.date) := by
  have hplen : (prophet df).length = df.length + 30 := by
    have h := congrArg List.length hmap
    simp only [List.length_map, List.length_append] at h
    omega
  have hlenA : ((tail30 df).map mkHistoryPoint).length = 30 := by
    simp only [List.length_map, tail30, List.length_drop]
    omega
  have hlenB : ((tail30 (prophet df)).map mkForecastPoint).length = 30 := by
    simp only [List.length_map, tail30, List.length_drop, hplen]
    omega
  refine ⟨_, _, run_forecast_ok df prophet std h30, rfl, ?_, ?_, ?_, ?_, ?_⟩
  · rw [List.length_append, hlenA, hlenB]
  · intro p hp
    rw [← hlenA, List.take_left] at hp
    obtain ⟨row, -, rfl⟩ := List.mem_map.1 hp
    exact ⟨rfl, rfl, rfl⟩
  · intro p hp
    rw [← hlenA, List.drop_left] at hp
    obtain ⟨row, -, rfl⟩ := List.mem_map.1 hp
    exact ⟨rfl, rfl, rfl⟩
  · intro p hp
    rcases List.mem_append.1 hp with h | h
    · obtain ⟨row, -, rfl⟩ := List.mem_map.1 h
      constructor <;> simp [mkHistoryPoint]
    · obtain ⟨row, -, rfl⟩ := List.mem_map.1 h
      constructor <;> simp [mkForecastPoint]
  · have hmapA :
        ((tail30 df).map mkHistoryPoint).map PredictionPoint.date
          = (df.map TimePoint.ds).drop (df.length - 30) := by
      simp only [tail30, List.map_map, List.map_drop]
      rfl
    have hmapB :
        ((tail30 (prophet df)).map mkForecastPoint).map PredictionPoint.date
          = futureDates := by
      have h1 : ((tail30 (prophet df)).map mkForecastPoint).map
            PredictionPoint.date
          = ((prophet df).map ProphetRow.ds).drop
              ((prophet df).length - 30) := by
        simp only [tail30, List.map_map, List.map_drop]
        rfl
      rw [h1, hmap, hplen]
      have h2 : df.length + 30 - 30 = (df.map TimePoint.ds).length := by
        simp
      rw [h2, List.drop_left]
    rw [List.map_append, hmapA, hmapB]
    show List.Pairwise (· < ·) _
    rw [List.pairwise_append]
    refine ⟨List.Pairwise.sublist (List.drop_sublist _ _) hsorted,
      hfsorted, ?_⟩
    intro a ha b hb
    exact hafter a (List.mem_of_mem_drop ha) b hb

lemma wDf_len : 30 ≤ wDf.length := by
  simp [wDf]

lemma wDf_ne : wDf ≠ [] := by
  simp [wDf]

lemma wProphet_ne : wProphet wDf ≠ [] := by
  simp [wProphet]

/-- Witness for C7 on the 30-point series `wDf` with the contract-abiding
forecaster `wProphet`. -/
theorem C7_witness :
    ∃ points metrics,
      run_forecast (.ok wDf) wProphet (fun _ => 1) = .ok (points, metrics)
      ∧ points = (tail30 wDf).map mkHistoryPoint
          ++ (tail30 (wProphet wDf)).map mkForecastPoint
      ∧ points.length = 60
      ∧ (∀ p ∈ points.take 30, p.type = "history"
          ∧ p.confidence_lower = none ∧ p.confidence_upper = none)
      ∧ (∀ p ∈ points.drop 30, p.type = "forecast"
          ∧ p.confidence_lower.isSome ∧ p.confidence_upper.isSome)
      ∧ (∀ p ∈ points, (p.confidence_lower.isSome ↔ p.type = "forecast")
          ∧ (p.confidence_upper.isSome ↔ p.type = "forecast"))
      ∧ List.Sorted (· < ·) (points.map PredictionPoint.date) :=
  C7_graph_series_shape wDf wProphet (fun _ => 1) wFutureDates
    wDf_len (by decide) (by decide) (by decide) (by decide) (by decide)

lemma lastY_eq (df : List TimePoint) (h : df ≠ []) :
    lastY df = (df.getLast h).y := by
  unfold lastY
  rw [List.getLast?_eq_getLast df h]
  rfl

lemma lastYhat_eq (fc : List ProphetRow) (h : fc ≠ []) :
    lastYhat fc = (fc.getLast h).yhat := by
  unfold lastYhat
  rw [List.getLast?_eq_getLast fc h]
  rfl

/-- C9: the reported metrics are the spec's formulas — growth is
`((forecast_price_at_30d - current_price) / current_price) * 100` with
`current_price` the last observed value and `forecast_price_at_30d` the
final forecast value — with prices and growth rounded to 2 decimal places
and the risk score to 1. -/
theorem C9_metrics_formulas
    (df : List TimePoint) (prophet : Forecaster) (std : List ℚ → ℚ)
    (h30 : 30 ≤ df.length) (hne : df ≠ []) (hfne : prophet df ≠ []) :
    ∃ points metrics,
      run_forecast (.ok df) prophet std = .ok (points, metrics)
      ∧ metrics.current_price = pyRound 2 (df.getLast hne).y
      ∧ metrics.predicted_price_30d
          = pyRound 2 ((prophet df).getLast hfne).yhat
      ∧ metrics.growth_percentage
          = pyRound 2 ((((prophet df).getLast hfne).yhat
              - (df.getLast hne).y) / (df.getLast hne).y * 100)
      ∧ metrics.risk_score
          = pyRound 1 (risk_score
              (std (pctChanges ((tail30 df).map TimePoint.y)) * 100)) := by
  refine ⟨_, _, run_forecast_ok df prophet std h30, ?_, ?_, ?_, rfl⟩
  · exact congrArg (pyRound 2) (lastY_eq df hne)
  · exact congrArg (pyRound 2) (lastYhat_eq (prophet df) hfne)
  · rw [← lastY_eq df hne, ← lastYhat_eq (prophet df) hfne]

/-- Witness for C9 on `wDf` and `wProphet`. -/
theorem C9_witness :
    ∃ points metrics,
      run_forecast (.ok wDf) wProphet (fun _ => 1) = .ok (points, metrics)
      ∧ metrics.current_price = pyRound 2 (wDf.getLast wDf_ne).y
      ∧ metrics.predicted_price_30d
          = pyRound 2 ((wProphet wDf).getLast wProphet_ne).yhat
      ∧ metrics.growth_percentage
          = pyRound 2 ((((wProphet wDf).getLast wProphet_ne).yhat
              - (wDf.getLast wDf_ne).y) / (wDf.getLast wDf_ne).y * 100)
      ∧ metrics.risk_score
          = pyRound 1 (risk_score
              ((fun _ => (1 : ℚ))
                  (pctChanges ((tail30 wDf).map TimePoint.y)) * 100)) :=
  C9_metrics_formulas wDf wProphet (fun _ => 1) wDf_len wDf_ne wProphet_ne

end SmartFinance
